import Mathlib

/-!
# Shallow embedding of the prowiiiz data layer

This file embeds the data-access layer of a project-management web app
(`src/services/database.ts`, `src/App.tsx`, the AI task generator, and the
SQL schema in `src/supabase/migrations/`) and proves the testable
properties stated in its specification.

Modelling conventions:
* The hosted backend is modelled as an explicit record of tables
  (`DB`).  Row ids are `Nat` (standing for uuids); the caller of an
  insert supplies the fresh id, mirroring `gen_random_uuid()`.
* Only the tables and columns the verified properties touch are kept:
  `projects` (id, progress), `tasks` (all columns used by the app),
  `project_members` (project, user, role) and `project_invitations`.
  Timestamps, profile data, comments and attachments are omitted — no
  verified property mentions them.
* Database constraints that the code can actually hit are modelled from
  `001_initial_schema.sql` and the `project_invitations` migration:
  `UNIQUE(project_id, user_id)` on `project_members`,
  `UNIQUE(project_id, invited_user_id)` and
  `CHECK (role IN ('Member','Viewer'))` on `project_invitations`, and the
  `DEFAULT 'Todo'` on `tasks.status`.  Foreign keys are not modelled (no
  property depends on them).
* Fallible operations return `Except String DB`; a thrown JS error is
  `Except.error`.  The one internally-caught failure the spec cares
  about — the project-progress rewrite inside `updateProjectProgress`
  failing and being swallowed by its own `try/catch` — is modelled by a
  boolean `progFail` parameter: when `true` the progress write is lost
  but the surrounding operation still succeeds.
* `Math.round((completed / total) * 100)` is modelled as exact rational
  rounding of `100·completed/total` (round half up), i.e.
  `(200*completed + total) / (2*total)` in natural division; IEEE-754
  rounding of the intermediate quotient is abstracted away.
-/

/-- Task status, from `src/types` (`TaskStatus`). -/
inductive TaskStatus where
  | TODO
  | IN_PROGRESS
  | COMPLETED
deriving DecidableEq, Repr

/-- Task priority, from `src/types` (`Priority`). -/
inductive Priority where
  | LOW
  | MEDIUM
  | HIGH
deriving DecidableEq, Repr

/-- Project-scoped role, from `src/types` (`ProjectRole`). -/
inductive ProjectRole where
  | Owner
  | Member
  | Viewer
deriving DecidableEq, Repr

/-- Invitation status, from the `project_invitations` schema
(`status IN ('pending','accepted','declined')`). -/
inductive InvStatus where
  | pending
  | accepted
  | declined
deriving DecidableEq, Repr

/-- A row of the `projects` table (only the columns the verified
properties use: `id` and the derived `progress`). -/
structure ProjectRow where
  id : Nat
  progress : Nat
deriving DecidableEq, Repr

/-- A row of the `tasks` table (`001_initial_schema.sql`). -/
structure TaskRow where
  id : Nat
  projectId : Nat
  title : String
  description : Option String
  status : TaskStatus
  priority : Priority
  assigneeId : Option Nat
  dueDate : Option String
  milestoneId : Option Nat
  position : Int
deriving DecidableEq, Repr

/-- A row of the `project_members` table; the table also carries its own
uuid primary key, which no code path reads. -/
structure MemberRow where
  projectId : Nat
  userId : Nat
  role : ProjectRole
deriving DecidableEq, Repr

/-- A row of the `project_invitations` table. -/
structure InvitationRow where
  id : Nat
  projectId : Nat
  invitedUserId : Nat
  invitedBy : Nat
  role : ProjectRole
  status : InvStatus
deriving DecidableEq, Repr

/-- The backend state: the four tables the verified properties touch. -/
structure DB where
  projects : List ProjectRow
  tasks : List TaskRow
  members : List MemberRow
  invitations : List InvitationRow
deriving DecidableEq, Repr

/-- `Math.round((completed / total) * 100)` for `0 ≤ completed ≤ total`,
`total > 0`: exact round-half-up of `100*completed/total`. -/
def jsRoundPct (completed total : Nat) : Nat :=
  (200 * completed + total) / (2 * total)

/-- The tasks of one project (the `eq('project_id', …)` filter). -/
def projectTasks (db : DB) (pid : Nat) : List TaskRow :=
  db.tasks.filter (fun t => t.projectId == pid)

/-- Rewrite one project's `progress` column. -/
def setProgress (db : DB) (pid : Nat) (v : Nat) : DB :=
  { db with
    projects := db.projects.map (fun p => if p.id == pid then { p with progress := v } else p) }

/-- `updateProjectProgress` (`database.ts:745`): recount the project's
tasks and rewrite `progress`; a project with no tasks gets `0`.  The
function catches every error itself, so it always returns normally;
`progFail` models the progress write being lost to a swallowed error. -/
def updateProjectProgress (progFail : Bool) (db : DB) (pid : Nat) : DB :=
  if progFail then db
  else
    let tasks := projectTasks db pid
    if tasks.length = 0 then setProgress db pid 0
    else
      let completed := (tasks.filter (fun t => t.status == TaskStatus.COMPLETED)).length
      setProgress db pid (jsRoundPct completed tasks.length)

/-- The fields `createTask` accepts (`Omit<Task, 'id' | 'comments'>`);
`status = none` means the column is left to its schema default. -/
structure TaskData where
  title : String
  description : Option String
  status : Option TaskStatus
  priority : Priority
  assigneeId : Option Nat
  dueDate : Option String
  milestoneId : Option Nat
deriving DecidableEq, Repr

/-- JS `x || 0` on the max-position read: `0` is falsy, everything else
is returned unchanged. -/
def jsOrZero (x : Int) : Int :=
  if x == 0 then 0 else x

/-- `createTask` (`database.ts:245`): read the greatest `position` in
the project (`order desc, limit 1`), insert a row at that position + 1.
The `status` column falls back to the schema default `'Todo'` when not
supplied.  Progress is *not* recomputed here. -/
def createTask (db : DB) (pid : Nat) (td : TaskData) (newId : Nat) :
    Except String (DB × TaskRow) :=
  let maxPos :=
    match ((projectTasks db pid).map (fun t => t.position)).max? with
    | none => 0
    | some p => jsOrZero p
  let position := maxPos + 1
  let row : TaskRow :=
    { id := newId
      projectId := pid
      title := td.title
      description := td.description
      status := td.status.getD TaskStatus.TODO
      priority := td.priority
      assigneeId := td.assigneeId
      dueDate := td.dueDate
      milestoneId := td.milestoneId
      position := position }
  Except.ok ({ db with tasks := db.tasks ++ [row] }, row)

/-- A `Partial<Task>` update: `none` means the field was not supplied
(the `!== undefined` guards in `updateTask`). -/
structure TaskUpdates where
  title : Option String
  description : Option (Option String)
  status : Option TaskStatus
  priority : Option Priority
  assigneeId : Option (Option Nat)
  dueDate : Option (Option String)
  milestoneId : Option Nat
deriving DecidableEq, Repr

/-- The update with every field absent. -/
def TaskUpdates.none : TaskUpdates :=
  ⟨Option.none, Option.none, Option.none, Option.none, Option.none, Option.none, Option.none⟩

/-- Apply the supplied fields of a `Partial<Task>` to one row. -/
def applyUpdates (u : TaskUpdates) (t : TaskRow) : TaskRow :=
  { t with
    title := u.title.getD t.title
    description := u.description.getD t.description
    status := u.status.getD t.status
    priority := u.priority.getD t.priority
    assigneeId := u.assigneeId.getD t.assigneeId
    dueDate := u.dueDate.getD t.dueDate
    milestoneId := match u.milestoneId with
      | some m => some m
      | none => t.milestoneId }

/-- `updateTask` (`database.ts:286`): update the supplied columns of the
row with the given id, then look the row up again to learn its project
and recompute that project's progress.  A missing row makes both the
update and the recomputation silent no-ops. -/
def updateTask (progFail : Bool) (db : DB) (tid : Nat) (u : TaskUpdates) :
    Except String DB :=
  let db1 : DB :=
    { db with tasks := db.tasks.map (fun t => if t.id == tid then applyUpdates u t else t) }
  match db1.tasks.find? (fun t => t.id == tid) with
  | some t => Except.ok (updateProjectProgress progFail db1 t.projectId)
  | none => Except.ok db1

/-- `deleteTask` (`database.ts:323`): remember the row's project, delete
the row, recompute that project's progress.  Comments cascade in the
schema; the comments table is not modelled. -/
def deleteTask (progFail : Bool) (db : DB) (tid : Nat) :
    Except String DB :=
  let pid? := (db.tasks.find? (fun t => t.id == tid)).map (fun t => t.projectId)
  let db1 : DB := { db with tasks := db.tasks.filter (fun t => !(t.id == tid)) }
  match pid? with
  | some pid => Except.ok (updateProjectProgress progFail db1 pid)
  | none => Except.ok db1

/-- `handleMoveTask` (`App.tsx:223`): the move intent only forwards the
new milestone to `updateTask`; the drop-target task id is accepted and
ignored. -/
def handleMoveTask (progFail : Bool) (db : DB) (tid : Nat)
    (newMilestoneId : Option Nat) (targetTaskId : Option Nat) :
    Except String DB :=
  let _ := targetTaskId
  updateTask progFail db tid { TaskUpdates.none with milestoneId := newMilestoneId }

/-- The progress value the spec prescribes for a project:
`round(100 × completed/total)` when it has tasks, else `0`. -/
def specProgress (db : DB) (pid : Nat) : Nat :=
  let tasks := projectTasks db pid
  if tasks.length = 0 then 0
  else jsRoundPct ((tasks.filter (fun t => t.status == TaskStatus.COMPLETED)).length) tasks.length

/-- The stored `progress` column of a project, if the row exists. -/
def storedProgress (db : DB) (pid : Nat) : Option Nat :=
  (db.projects.find? (fun p => p.id == pid)).map (fun p => p.progress)

/-- `createProjectInvitation` (`database.ts:774`): reject an invitee who
is already a member, then reject a second pending invitation, then
insert a `pending` row.  The insert itself can still fail on the table's
`CHECK (role IN ('Member','Viewer'))` and
`UNIQUE(project_id, invited_user_id)` constraints. -/
def createProjectInvitation (db : DB) (pid invitedUserId invitedBy : Nat)
    (role : ProjectRole) (newId : Nat) :
    Except String (DB × InvitationRow) :=
  if db.members.any (fun m => m.projectId == pid && m.userId == invitedUserId) then
    Except.error "User is already a member of this project"
  else if db.invitations.any (fun i =>
      i.projectId == pid && i.invitedUserId == invitedUserId
        && i.status == InvStatus.pending) then
    Except.error "User already has a pending invitation to this project"
  else if role == ProjectRole.Owner then
    Except.error "check constraint violated: project_invitations.role"
  else if db.invitations.any (fun i =>
      i.projectId == pid && i.invitedUserId == invitedUserId) then
    Except.error "unique constraint violated: project_invitations(project_id, invited_user_id)"
  else
    let row : InvitationRow :=
      { id := newId
        projectId := pid
        invitedUserId := invitedUserId
        invitedBy := invitedBy
        role := role
        status := InvStatus.pending }
    Except.ok ({ db with invitations := db.invitations ++ [row] }, row)

/-- `acceptProjectInvitation` (`database.ts:887`): look the row up with
`eq('status','pending').single()` (a non-pending or unknown id throws),
insert a membership with the invitation's role (which can hit
`UNIQUE(project_id, user_id)` on `project_members`), then mark the
invitation accepted. -/
def acceptProjectInvitation (db : DB) (invId : Nat) : Except String DB :=
  match db.invitations.find? (fun i =>
      i.id == invId && i.status == InvStatus.pending) with
  | none => Except.error "Invitation not found or already processed"
  | some inv =>
    if db.members.any (fun m =>
        m.projectId == inv.projectId && m.userId == inv.invitedUserId) then
      Except.error "unique constraint violated: project_members(project_id, user_id)"
    else
      let db1 : DB :=
        { db with members := db.members ++
            [{ projectId := inv.projectId, userId := inv.invitedUserId, role := inv.role }] }
      Except.ok
        { db1 with invitations := db1.invitations.map (fun i =>
            if i.id == invId then { i with status := InvStatus.accepted } else i) }

/-- `declineProjectInvitation` (`database.ts:924`): set the row's status
to `declined`; there is no `pending` filter, and an update matching no
rows is not an error. -/
def declineProjectInvitation (db : DB) (invId : Nat) : Except String DB :=
  Except.ok
    { db with invitations := db.invitations.map (fun i =>
        if i.id == invId then { i with status := InvStatus.declined } else i) }

/-- `cancelProjectInvitation` (`database.ts:938`): delete the row only
while it is still `pending` (`eq('id',…).eq('status','pending')`); a
delete matching no rows is not an error. -/
def cancelProjectInvitation (db : DB) (invId : Nat) : Except String DB :=
  Except.ok
    { db with invitations := db.invitations.filter (fun i =>
        !(i.id == invId && i.status == InvStatus.pending)) }

/-!
## The AI task-suggestion adapter (`generateProjectTasks`)

The external generative call is modelled by an oracle mapping the
attempt number to its outcome: `none` stands for a transport error, an
empty response text, or malformed JSON; `some l` for a response that
parsed to the JSON array `l` (the code treats `some []` as a failure
too).  Wall-clock time is a `now : Nat` parameter in milliseconds; the
ISO date strings the code builds are abstracted to the underlying
millisecond timestamps. -/

/-- One element of the parsed JSON array: `title` may be missing (or
empty, which JS `||` also discards), `priority` is an arbitrary string
to be validated. -/
structure RawTask where
  title : Option String
  priority : String
deriving DecidableEq, Repr

/-- A task produced by the adapter (`id`, `title`, default-`Todo`
status, validated priority, optional due timestamp; the empty comments
list is omitted). -/
structure GenTask where
  id : String
  title : String
  status : TaskStatus
  priority : Priority
  dueDate : Option Nat
deriving DecidableEq, Repr

/-- What one run of `generateProjectTasks` produced and did: the task
list returned, the `setTimeout` delays awaited, and how many external
calls were made. -/
structure GenResult where
  tasks : List GenTask
  delaysMs : List Nat
  callCount : Nat
deriving DecidableEq, Repr

/-- `t.title || "Untitled Task"`: JS `||` discards both a missing and an
empty title. -/
def titleOrUntitled (t : Option String) : String :=
  match t with
  | some s => if s == "" then "Untitled Task" else s
  | none => "Untitled Task"

/-- `["High","Medium","Low"].includes(p) ? p : "Medium"`, then cast. -/
def validatePriority (p : String) : Priority :=
  if p == "High" then Priority.HIGH
  else if p == "Medium" then Priority.MEDIUM
  else if p == "Low" then Priority.LOW
  else Priority.MEDIUM

/-- The `rawTasks.map(...)` transform: stamp a generated id, default the
status to `Todo`, validate the priority, and stagger due dates one day
(86400000 ms) per index. -/
def transformRaw (now : Nat) (l : List RawTask) : List GenTask :=
  l.mapIdx (fun i t =>
    { id := "generated-" ++ toString now ++ "-" ++ toString i
      title := titleOrUntitled t.title
      status := TaskStatus.TODO
      priority := validatePriority t.priority
      dueDate := some (now + 86400000 * (i + 1)) })

/-- `simulateAiResponse`: the fixed five-task fallback list ('sim-1' has
today as its due date, the rest have none). -/
def simulateAiResponse (now : Nat) : List GenTask :=
  [ { id := "sim-1", title := "Initial Project Setup", status := TaskStatus.TODO,
      priority := Priority.HIGH, dueDate := some now },
    { id := "sim-2", title := "Research & Analysis", status := TaskStatus.TODO,
      priority := Priority.MEDIUM, dueDate := none },
    { id := "sim-3", title := "Draft Requirements", status := TaskStatus.TODO,
      priority := Priority.HIGH, dueDate := none },
    { id := "sim-4", title := "Team Kickoff Meeting", status := TaskStatus.TODO,
      priority := Priority.MEDIUM, dueDate := none },
    { id := "sim-5", title := "Review Milestone 1", status := TaskStatus.TODO,
      priority := Priority.LOW, dueDate := none } ]

/-- `const MAX_RETRIES = 3`. -/
def MAX_RETRIES : Nat := 3

/-- The `while (attempt < MAX_RETRIES)` loop.  The extra `fuel`
argument makes the recursion structural; the top-level entry passes
`fuel = MAX_RETRIES`, which the loop never exhausts because `attempt`
grows by one per iteration.  A successful, non-empty parsed array
returns the transformed tasks; any failure runs the catch block:
increment `attempt`, fall back once `attempt >= MAX_RETRIES`, otherwise
await `1000 * 2 ^ attempt` ms and loop. -/
def generateLoop (oracle : Nat → Option (List RawTask)) (now : Nat) :
    Nat → Nat → GenResult
  | _, 0 => { tasks := simulateAiResponse now, delaysMs := [], callCount := 0 }
  | attempt, fuel + 1 =>
    if attempt < MAX_RETRIES then
      let onFail : GenResult :=
        let a := attempt + 1
        if MAX_RETRIES ≤ a then
          { tasks := simulateAiResponse now, delaysMs := [], callCount := 1 }
        else
          let r := generateLoop oracle now a fuel
          { r with delaysMs := 1000 * 2 ^ a :: r.delaysMs, callCount := r.callCount + 1 }
      match oracle attempt with
      | some l => if l.length != 0 then
          { tasks := transformRaw now l, delaysMs := [], callCount := 1 }
        else onFail
      | none => onFail
    else { tasks := simulateAiResponse now, delaysMs := [], callCount := 0 }

/-- `generateProjectTasks` (the adapter's entry point): with no API key
— JS treats the empty string as missing too — return the fallback list
immediately; otherwise run the retry loop. -/
def generateProjectTasks (apiKey : Option String)
    (oracle : Nat → Option (List RawTask)) (now : Nat) : GenResult :=
  match apiKey with
  | none => { tasks := simulateAiResponse now, delaysMs := [], callCount := 0 }
  | some k =>
    if k == "" then { tasks := simulateAiResponse now, delaysMs := [], callCount := 0 }
    else generateLoop oracle now 0 MAX_RETRIES

/-- An attempt outcome the code treats as a failure: transport error,
empty or malformed text, or an empty parsed array. -/
def attemptFailed (o : Option (List RawTask)) : Prop :=
  o = none ∨ o = some []

instance (o : Option (List RawTask)) : Decidable (attemptFailed o) := by
  unfold attemptFailed
  infer_instance

/-- `true` exactly when the call did not throw. -/
def exceptIsOk {α : Type} : Except String α → Bool
  | Except.ok _ => true
  | Except.error _ => false

/-!
## Helper lemmas
-/

theorem jsOrZero_add_one (m : Int) : jsOrZero m + 1 = m + 1 := by
  unfold jsOrZero
  split
  · next h => simp only [beq_iff_eq] at h; omega
  · rfl

theorem setProgress_tasks (db : DB) (pid v : Nat) :
    (setProgress db pid v).tasks = db.tasks := rfl

theorem specProgress_setProgress (db : DB) (pid v pid2 : Nat) :
    specProgress (setProgress db pid v) pid2 = specProgress db pid2 := rfl

/-- On the no-failure path, `updateProjectProgress` writes exactly the
spec's progress value for the project. -/
theorem updateProjectProgress_eq (db : DB) (pid : Nat) :
    updateProjectProgress false db pid = setProgress db pid (specProgress db pid) := by
  unfold updateProjectProgress specProgress
  simp only [Bool.false_eq_true, if_false]
  split <;> rfl

theorem setProgress_mem (db : DB) (pid v : Nat) (p : ProjectRow)
    (hp : p ∈ (setProgress db pid v).projects) (hid : p.id = pid) :
    p.progress = v := by
  unfold setProgress at hp
  simp only [List.mem_map] at hp
  obtain ⟨q, hq, hfq⟩ := hp
  by_cases h : q.id = pid
  · simp only [h, beq_self_eq_true, if_true] at hfq
    rw [← hfq]
  · simp only [beq_iff_eq, h, if_false] at hfq
    subst hfq
    exact absurd hid h

theorem setProgress_projects_eq_self (db : DB) (pid v : Nat)
    (h : ∀ p ∈ db.projects, p.id = pid → p.progress = v) :
    (setProgress db pid v).projects = db.projects := by
  unfold setProgress
  have : db.projects.map (fun p => if p.id == pid then { p with progress := v } else p)
      = db.projects.map id := by
    apply List.map_congr_left
    intro p hp
    by_cases hid : p.id = pid
    · have hv : p.progress = v := h p hp hid
      have hb : (p.id == pid) = true := by simp [hid]
      rw [hb]
      simp only [if_true, id_eq]
      rw [← hv]
    · simp only [beq_iff_eq, hid, if_false, id_eq]
  rw [this, List.map_id]

theorem updateProjectProgress_frame (progFail : Bool) (db : DB) (pid : Nat) :
    (updateProjectProgress progFail db pid).tasks = db.tasks
    ∧ (updateProjectProgress progFail db pid).members = db.members
    ∧ (updateProjectProgress progFail db pid).invitations = db.invitations := by
  unfold updateProjectProgress
  cases progFail
  · dsimp only
    rw [if_neg (by simp : ¬(false = true))]
    refine ⟨?_, ?_, ?_⟩ <;> (split <;> rfl)
  · exact ⟨rfl, rfl, rfl⟩

/-- A map that changes neither a task's project nor its status leaves
every project's spec progress unchanged. -/
theorem specProgress_map_invariant (db : DB) (f : TaskRow → TaskRow)
    (hproj : ∀ t, (f t).projectId = t.projectId)
    (hstat : ∀ t, (f t).status = t.status) (pid : Nat) :
    specProgress { db with tasks := db.tasks.map f } pid = specProgress db pid := by
  unfold specProgress projectTasks
  simp only
  rw [List.filter_map]
  have hpred : ((fun t => t.projectId == pid) ∘ f) = (fun t => t.projectId == pid) := by
    funext t
    simp [Function.comp, hproj t]
  rw [hpred, List.filter_map]
  have hpred2 : ((fun t => t.status == TaskStatus.COMPLETED) ∘ f)
      = (fun t => t.status == TaskStatus.COMPLETED) := by
    funext t
    simp [Function.comp, hstat t]
  rw [hpred2]
  simp [List.length_map]

theorem applyUpdates_id_eq (u : TaskUpdates) (t : TaskRow) :
    (applyUpdates u t).id = t.id := rfl

theorem applyUpdates_projectId_eq (u : TaskUpdates) (t : TaskRow) :
    (applyUpdates u t).projectId = t.projectId := rfl

/-- `updateTask` rewrites the matching rows and recomputes the progress
of the (unchanged) project of the matched task. -/
theorem updateTask_eq (db : DB) (tid : Nat) (u : TaskUpdates) (t : TaskRow)
    (hfind : db.tasks.find? (fun x => x.id == tid) = some t) (progFail : Bool) :
    updateTask progFail db tid u =
      Except.ok (updateProjectProgress progFail
        { db with tasks := db.tasks.map (fun x => if x.id == tid then applyUpdates u x else x) }
        t.projectId) := by
  unfold updateTask
  have hfun : ((fun x : TaskRow => x.id == tid) ∘
        (fun x => if x.id == tid then applyUpdates u x else x))
      = (fun x : TaskRow => x.id == tid) := by
    funext x
    by_cases h : (x.id == tid) = true
    · simp only [Function.comp_apply, if_pos h]
      rfl
    · simp only [Function.comp_apply, if_neg h]
  have hf2 : (db.tasks.map (fun x => if x.id == tid then applyUpdates u x else x)).find?
        (fun x => x.id == tid) = some (applyUpdates u t) := by
    rw [List.find?_map, hfun, hfind, Option.map_some']
    rw [if_pos (List.find?_some hfind)]
  dsimp only
  rw [hf2]
  rfl

/-- `deleteTask` removes the matching rows and recomputes the progress
of the deleted task's project. -/
theorem deleteTask_eq (db : DB) (tid : Nat) (t : TaskRow)
    (hfind : db.tasks.find? (fun x => x.id == tid) = some t) (progFail : Bool) :
    deleteTask progFail db tid =
      Except.ok (updateProjectProgress progFail
        { db with tasks := db.tasks.filter (fun x => !(x.id == tid)) }
        t.projectId) := by
  unfold deleteTask
  rw [hfind]
  rfl

/-- On the no-failure path, the project row targeted by the
recomputation ends up holding the spec's progress value for the
post-state. -/
theorem recompute_correct (db : DB) (pid : Nat) :
    ∀ p ∈ (updateProjectProgress false db pid).projects, p.id = pid →
      p.progress = specProgress (updateProjectProgress false db pid) pid := by
  intro p hp hid
  rw [updateProjectProgress_eq] at hp ⊢
  rw [specProgress_setProgress]
  exact setProgress_mem db pid _ p hp hid

/-- **C1 (amended).** After any successful task update or task delete
(on the path where the progress rewrite is not lost to a swallowed
backend error), the stored progress of the mutated task's project
equals `round(100 × completed/total)` when the project has tasks and
`0` when it has none.  Task *creation*, however, recomputes nothing: it
leaves the projects table — including the stored progress — exactly as
it was, so the equality can fail after a create. -/
theorem c1_progress_after_task_mutations
    (db : DB) (tid : Nat) (u : TaskUpdates) (t : TaskRow)
    (hfind : db.tasks.find? (fun x => x.id == tid) = some t) :
    (∀ db1, updateTask false db tid u = Except.ok db1 →
      ∀ p ∈ db1.projects, p.id = t.projectId → p.progress = specProgress db1 t.projectId)
    ∧ (∀ db1, deleteTask false db tid = Except.ok db1 →
      ∀ p ∈ db1.projects, p.id = t.projectId → p.progress = specProgress db1 t.projectId)
    ∧ (∀ pid td newId db1 row, createTask db pid td newId = Except.ok (db1, row) →
      db1.projects = db.projects) := by
  refine ⟨?_, ?_, ?_⟩
  · intro db1 h
    rw [updateTask_eq db tid u t hfind false] at h
    injection h with h
    subst h
    exact recompute_correct _ t.projectId
  · intro db1 h
    rw [deleteTask_eq db tid t hfind false] at h
    injection h with h
    subst h
    exact recompute_correct _ t.projectId
  · intro pid td newId db1 row h
    unfold createTask at h
    injection h with h
    injection h with h1 h2
    rw [← h1]

/-- The one task of the counterexample state for C1. -/
def c1task : TaskRow :=
  { id := 10, projectId := 1, title := "A", description := none,
    status := TaskStatus.COMPLETED, priority := Priority.MEDIUM,
    assigneeId := none, dueDate := none, milestoneId := none, position := 1 }

/-- Counterexample state for C1: one project whose stored progress 100
is correct for its single completed task. -/
def c1db : DB :=
  { projects := [{ id := 1, progress := 100 }]
    tasks := [c1task]
    members := []
    invitations := [] }

/-- The task data of the C1 counterexample: a new `Todo` task. -/
def c1taskData : TaskData :=
  { title := "B", description := none, status := some TaskStatus.TODO,
    priority := Priority.LOW, assigneeId := none, dueDate := none, milestoneId := none }

/-- **C1, counterexample.** Creating a task does not recompute
progress: starting from a project whose stored progress 100 matches its
one completed task, adding a `Todo` task leaves the stored progress at
100 although `round(100 × 1/2) = 50`. -/
theorem c1_create_leaves_progress_stale :
    (createTask c1db 1 c1taskData 11).toOption.map (fun r => storedProgress r.1 1)
      = some (some 100)
    ∧ (createTask c1db 1 c1taskData 11).toOption.map (fun r => specProgress r.1 1)
      = some 50
    ∧ (100 : Nat) ≠ 50 := by
  refine ⟨?_, ?_, ?_⟩ <;> decide

/-- Witness for C1 (amended): the hypotheses hold and the theorem
applies at the concrete counterexample state. -/
theorem c1_progress_after_task_mutations_witness :
    c1db.tasks.find? (fun x => x.id == 10) = some c1task
    ∧ ((∀ db1, updateTask false c1db 10 TaskUpdates.none = Except.ok db1 →
        ∀ p ∈ db1.projects, p.id = c1task.projectId →
          p.progress = specProgress db1 c1task.projectId)
      ∧ (∀ db1, deleteTask false c1db 10 = Except.ok db1 →
        ∀ p ∈ db1.projects, p.id = c1task.projectId →
          p.progress = specProgress db1 c1task.projectId)
      ∧ (∀ pid td newId db1 row, createTask c1db pid td newId = Except.ok (db1, row) →
        db1.projects = c1db.projects)) :=
  ⟨by decide, c1_progress_after_task_mutations c1db 10 TaskUpdates.none c1task (by decide)⟩

/-- **C10.** When the task mutation itself succeeds but the progress
rewrite inside `updateProjectProgress` fails, the error is swallowed:
`updateTask` and `deleteTask` still return success, the task change is
persisted, and the projects table — hence the stored progress — is left
untouched (stale). -/
theorem c10_progress_failure_swallowed (db : DB) (tid : Nat) (u : TaskUpdates) :
    exceptIsOk (updateTask true db tid u) = true
    ∧ (∀ db1, updateTask true db tid u = Except.ok db1 →
        db1.projects = db.projects
        ∧ db1.tasks = db.tasks.map (fun x => if x.id == tid then applyUpdates u x else x))
    ∧ exceptIsOk (deleteTask true db tid) = true
    ∧ (∀ db1, deleteTask true db tid = Except.ok db1 →
        db1.projects = db.projects
        ∧ db1.tasks = db.tasks.filter (fun x => !(x.id == tid))) := by
  refine ⟨?_, ?_, ?_, ?_⟩
  · unfold updateTask
    dsimp only
    split <;> rfl
  · intro db1 h
    unfold updateTask at h
    dsimp only at h
    split at h
    · injection h with h
      subst h
      exact ⟨rfl, rfl⟩
    · injection h with h
      subst h
      exact ⟨rfl, rfl⟩
  · unfold deleteTask
    dsimp only
    split <;> rfl
  · intro db1 h
    unfold deleteTask at h
    dsimp only at h
    split at h
    · injection h with h
      subst h
      exact ⟨rfl, rfl⟩
    · injection h with h
      subst h
      exact ⟨rfl, rfl⟩

/-- Concrete state for the C10 witness: stored progress 100 is about to
go stale. -/
def c10db : DB :=
  { projects := [{ id := 1, progress := 100 }]
    tasks := [{ id := 10, projectId := 1, title := "A", description := none,
                status := TaskStatus.COMPLETED, priority := Priority.MEDIUM,
                assigneeId := none, dueDate := none, milestoneId := none, position := 1 }]
    members := []
    invitations := [] }

/-- The update of the C10 witness: mark the task `Todo`. -/
def c10upd : TaskUpdates :=
  { TaskUpdates.none with status := some TaskStatus.TODO }

/-- The state the C10 witness expects: task now `Todo`, progress still
100 (stale, since the rewrite was lost). -/
def c10res : DB :=
  { projects := [{ id := 1, progress := 100 }]
    tasks := [{ id := 10, projectId := 1, title := "A", description := none,
                status := TaskStatus.TODO, priority := Priority.MEDIUM,
                assigneeId := none, dueDate := none, milestoneId := none, position := 1 }]
    members := []
    invitations := [] }

/-- Witness for C10 at a concrete stale-progress state. -/
theorem c10_progress_failure_swallowed_witness :
    updateTask true c10db 10 c10upd = Except.ok c10res
    ∧ c10res.projects = c10db.projects :=
  ⟨by rfl, ((c10_progress_failure_swallowed c10db 10 c10upd).2.1 c10res (by rfl)).1⟩

/-- **C6.** `createTask` gives the new row position
`(max existing position in the project) + 1` and, when no status is
supplied, the schema default status `Todo`. -/
theorem c6_createTask_position_default (db : DB) (pid : Nat) (td : TaskData)
    (newId : Nat) (db1 : DB) (row : TaskRow)
    (h : createTask db pid td newId = Except.ok (db1, row)) :
    (∀ m, ((projectTasks db pid).map (fun t => t.position)).max? = some m →
      row.position = m + 1)
    ∧ (td.status = none → row.status = TaskStatus.TODO) := by
  unfold createTask at h
  injection h with h
  injection h with h1 h2
  subst h2
  constructor
  · intro m hm
    show (match ((projectTasks db pid).map (fun t => t.position)).max? with
      | none => 0
      | some p => jsOrZero p) + 1 = m + 1
    rw [hm]
    exact jsOrZero_add_one m
  · intro hs
    show td.status.getD TaskStatus.TODO = TaskStatus.TODO
    rw [hs]
    rfl

/-- Concrete state for the C6 witness: one task at position 2. -/
def c6db : DB :=
  { projects := []
    tasks := [{ id := 20, projectId := 2, title := "X", description := none,
                status := TaskStatus.TODO, priority := Priority.LOW,
                assigneeId := none, dueDate := none, milestoneId := none, position := 2 }]
    members := []
    invitations := [] }

/-- Task data for the C6 witness, with no status supplied. -/
def c6td : TaskData :=
  { title := "Y", description := none, status := none, priority := Priority.HIGH,
    assigneeId := none, dueDate := none, milestoneId := none }

/-- The row the C6 witness expects: position 3 = 2 + 1, default status. -/
def c6row : TaskRow :=
  { id := 21, projectId := 2, title := "Y", description := none,
    status := TaskStatus.TODO, priority := Priority.HIGH,
    assigneeId := none, dueDate := none, milestoneId := none, position := 3 }

/-- The state the C6 witness expects after the insert. -/
def c6res : DB :=
  { projects := []
    tasks := [{ id := 20, projectId := 2, title := "X", description := none,
                status := TaskStatus.TODO, priority := Priority.LOW,
                assigneeId := none, dueDate := none, milestoneId := none, position := 2 },
              c6row]
    members := []
    invitations := [] }

/-- Witness for C6 at a concrete state. -/
theorem c6_createTask_position_default_witness :
    createTask c6db 2 c6td 21 = Except.ok (c6res, c6row)
    ∧ ((∀ m, ((projectTasks c6db 2).map (fun t => t.position)).max? = some m →
        c6row.position = m + 1)
      ∧ (c6td.status = none → c6row.status = TaskStatus.TODO)) :=
  ⟨by rfl, c6_createTask_position_default c6db 2 c6td 21 c6res c6row (by rfl)⟩

/-- The row transformation `handleMoveTask` induces on the tasks table:
only the milestone reference of the matching rows is touched (and only
when a target milestone was actually supplied). -/
def moveRow (tid : Nat) (mid : Option Nat) (t : TaskRow) : TaskRow :=
  if t.id == tid then
    { t with milestoneId := match mid with | some m => some m | none => t.milestoneId }
  else t

theorem moveRow_projectId (tid : Nat) (mid : Option Nat) (t : TaskRow) :
    (moveRow tid mid t).projectId = t.projectId := by
  unfold moveRow
  split <;> rfl

theorem moveRow_status (tid : Nat) (mid : Option Nat) (t : TaskRow) :
    (moveRow tid mid t).status = t.status := by
  unfold moveRow
  split <;> rfl

theorem applyUpdates_move (tid : Nat) (mid : Option Nat) (t : TaskRow) :
    (if t.id == tid then applyUpdates { TaskUpdates.none with milestoneId := mid } t else t)
      = moveRow tid mid t := by
  unfold moveRow
  split <;> rfl

/-- **C7.** The `moveTask` intent only reassigns the moved task's
milestone reference: every other field of the moved task (its position
included) is preserved, every other task row is untouched, the members
and invitations tables are unchanged, and the drop-target task argument
has no effect whatsoever on the resulting state.  The projects table is
also unchanged whenever the stored progress was already correct (the
underlying `updateTask` recomputes it, writing back the same value). -/
theorem c7_moveTask_frame (progFail : Bool) (db : DB) (tid : Nat)
    (mid : Option Nat) (targ targ2 : Option Nat) :
    handleMoveTask progFail db tid mid targ = handleMoveTask progFail db tid mid targ2
    ∧ (∀ db1, handleMoveTask progFail db tid mid targ = Except.ok db1 →
        db1.tasks = db.tasks.map (moveRow tid mid)
        ∧ db1.members = db.members
        ∧ db1.invitations = db.invitations
        ∧ ((∀ p ∈ db.projects, p.progress = specProgress db p.id) →
            db1.projects = db.projects)) := by
  constructor
  · rfl
  · intro db1 h
    unfold handleMoveTask updateTask at h
    dsimp only at h
    rw [List.map_congr_left (fun t _ => applyUpdates_move tid mid t)] at h
    split at h
    · next t' heq =>
      injection h with h
      subst h
      obtain ⟨hT, hM, hI⟩ := updateProjectProgress_frame progFail
        { db with tasks := db.tasks.map (moveRow tid mid) } t'.projectId
      refine ⟨hT, hM, hI, ?_⟩
      intro hprog
      cases progFail
      · rw [updateProjectProgress_eq]
        have hspec : specProgress { db with tasks := db.tasks.map (moveRow tid mid) }
            t'.projectId = specProgress db t'.projectId :=
          specProgress_map_invariant db (moveRow tid mid)
            (moveRow_projectId tid mid) (moveRow_status tid mid) t'.projectId
        rw [hspec]
        exact setProgress_projects_eq_self _ _ _
          (fun p hp hid => by rw [hprog p hp, hid])
      · rfl
    · injection h with h
      subst h
      exact ⟨rfl, rfl, rfl, fun _ => rfl⟩

/-- Concrete state for the C7 witness: stored progress 0 is correct for
the single `Todo` task. -/
def c7db : DB :=
  { projects := [{ id := 1, progress := 0 }]
    tasks := [{ id := 10, projectId := 1, title := "A", description := none,
                status := TaskStatus.TODO, priority := Priority.MEDIUM,
                assigneeId := none, dueDate := none, milestoneId := none, position := 1 }]
    members := []
    invitations := [] }

/-- The state the C7 witness expects: only the task's milestone
reference changed. -/
def c7res : DB :=
  { projects := [{ id := 1, progress := 0 }]
    tasks := [{ id := 10, projectId := 1, title := "A", description := none,
                status := TaskStatus.TODO, priority := Priority.MEDIUM,
                assigneeId := none, dueDate := none, milestoneId := some 5, position := 1 }]
    members := []
    invitations := [] }

/-- Witness for C7: apply the frame theorem at a concrete correct
state, with two different drop-target arguments, and discharge the
stored-progress hypothesis of the projects-frame conjunct. -/
theorem c7_moveTask_frame_witness :
    handleMoveTask false c7db 10 (some 5) (some 99) = Except.ok c7res
    ∧ c7res.projects = c7db.projects :=
  ⟨by rfl,
    ((c7_moveTask_frame false c7db 10 (some 5) (some 99) none).2 c7res (by rfl)).2.2.2
      (by decide)⟩

/-- **C8.** Declining or cancelling an invitation never touches the
memberships table; and `cancel` deletes the invitation exactly when it
is still pending, leaving the invitations table unchanged when the
invitation is already accepted or declined. -/
theorem c8_decline_cancel (db : DB) (invId : Nat) :
    (∀ db1, declineProjectInvitation db invId = Except.ok db1 → db1.members = db.members)
    ∧ (∀ db1, cancelProjectInvitation db invId = Except.ok db1 →
        db1.members = db.members
        ∧ (∀ inv ∈ db.invitations, inv.id = invId → inv.status = InvStatus.pending →
            inv ∉ db1.invitations)
        ∧ ((∀ inv ∈ db.invitations, inv.id = invId → inv.status ≠ InvStatus.pending) →
            db1.invitations = db.invitations)) := by
  constructor
  · intro db1 h
    unfold declineProjectInvitation at h
    injection h with h
    subst h
    rfl
  · intro db1 h
    unfold cancelProjectInvitation at h
    injection h with h
    subst h
    refine ⟨rfl, ?_, ?_⟩
    · intro inv hmem hid hst hcontra
      rw [List.mem_filter] at hcontra
      have : (!(inv.id == invId && inv.status == InvStatus.pending)) = true := hcontra.2
      rw [hid, hst] at this
      simp at this
    · intro hnone
      show db.invitations.filter _ = db.invitations
      rw [List.filter_eq_self]
      intro inv hmem
      by_cases hid : inv.id = invId
      · have := hnone inv hmem hid
        simp only [Bool.not_eq_true']
        rw [Bool.and_eq_false_iff]
        right
        simp only [beq_eq_false_iff_ne, ne_eq]
        exact this
      · simp only [Bool.not_eq_true']
        rw [Bool.and_eq_false_iff]
        left
        simp only [beq_eq_false_iff_ne, ne_eq]
        exact hid

/-- Concrete state for the C8 witness: one pending and one declined
invitation. -/
def c8db : DB :=
  { projects := [], tasks := [], members := [{ projectId := 1, userId := 3, role := ProjectRole.Owner }]
    invitations := [{ id := 5, projectId := 1, invitedUserId := 2, invitedBy := 3,
                      role := ProjectRole.Member, status := InvStatus.pending },
                    { id := 6, projectId := 1, invitedUserId := 4, invitedBy := 3,
                      role := ProjectRole.Viewer, status := InvStatus.declined }] }

/-- The state the C8 witness expects after cancelling invitation 5. -/
def c8res : DB :=
  { projects := [], tasks := [], members := [{ projectId := 1, userId := 3, role := ProjectRole.Owner }]
    invitations := [{ id := 6, projectId := 1, invitedUserId := 4, invitedBy := 3,
                      role := ProjectRole.Viewer, status := InvStatus.declined }] }

/-- Witness for C8: cancel a concrete pending invitation. -/
theorem c8_decline_cancel_witness :
    cancelProjectInvitation c8db 5 = Except.ok c8res
    ∧ c8res.members = c8db.members :=
  ⟨by rfl, ((c8_decline_cancel c8db 5).2 c8res (by rfl)).1⟩

/-- **C9.** Every invitation's proposed role is `Member` or `Viewer`:
the schema's role check makes an `Owner` invite fail outright, a
successful invite stores a non-`Owner` role, and the three resolution
operations never change a stored role — so the invariant is preserved
by every invitation operation. -/
theorem c9_invitation_roles (db : DB) (pid uid inviter newId : Nat) (role : ProjectRole)
    (hinv : ∀ i ∈ db.invitations, i.role = ProjectRole.Member ∨ i.role = ProjectRole.Viewer) :
    (role = ProjectRole.Owner →
      exceptIsOk (createProjectInvitation db pid uid inviter role newId) = false)
    ∧ (∀ db1 row, createProjectInvitation db pid uid inviter role newId
          = Except.ok (db1, row) →
        ∀ i ∈ db1.invitations, i.role = ProjectRole.Member ∨ i.role = ProjectRole.Viewer)
    ∧ (∀ invId db1, acceptProjectInvitation db invId = Except.ok db1 →
        ∀ i ∈ db1.invitations, i.role = ProjectRole.Member ∨ i.role = ProjectRole.Viewer)
    ∧ (∀ invId db1, declineProjectInvitation db invId = Except.ok db1 →
        ∀ i ∈ db1.invitations, i.role = ProjectRole.Member ∨ i.role = ProjectRole.Viewer)
    ∧ (∀ invId db1, cancelProjectInvitation db invId = Except.ok db1 →
        ∀ i ∈ db1.invitations, i.role = ProjectRole.Member ∨ i.role = ProjectRole.Viewer) := by
  refine ⟨?_, ?_, ?_, ?_, ?_⟩
  · intro hrole
    subst hrole
    unfold createProjectInvitation
    split
    · rfl
    · split
      · rfl
      · rfl
  · intro db1 row h
    unfold createProjectInvitation at h
    split at h
    · exact absurd h (by simp)
    · split at h
      · exact absurd h (by simp)
      · split at h
        · exact absurd h (by simp)
        · split at h
          · exact absurd h (by simp)
          · next hmem hpend hrole hrow =>
            injection h with h
            injection h with h1 h2
            subst h1
            intro i hi
            show i.role = ProjectRole.Member ∨ i.role = ProjectRole.Viewer
            rw [List.mem_append] at hi
            rcases hi with hi | hi
            · exact hinv i hi
            · rw [List.mem_singleton] at hi
              subst hi
              show role = ProjectRole.Member ∨ role = ProjectRole.Viewer
              cases role
              · exact absurd (by decide) hrole
              · exact Or.inl rfl
              · exact Or.inr rfl
  · intro invId db1 h
    unfold acceptProjectInvitation at h
    split at h
    · exact absurd h (by simp)
    · split at h
      · exact absurd h (by simp)
      · injection h with h
        subst h
        intro i hi
        show i.role = ProjectRole.Member ∨ i.role = ProjectRole.Viewer
        simp only [List.mem_map] at hi
        obtain ⟨j, hj, hij⟩ := hi
        have hrole : i.role = j.role := by
          subst hij
          split <;> rfl
        rw [hrole]
        exact hinv j hj
  · intro invId db1 h
    unfold declineProjectInvitation at h
    injection h with h
    subst h
    intro i hi
    simp only [List.mem_map] at hi
    obtain ⟨j, hj, hij⟩ := hi
    have hrole : i.role = j.role := by
      subst hij
      split <;> rfl
    rw [hrole]
    exact hinv j hj
  · intro invId db1 h
    unfold cancelProjectInvitation at h
    injection h with h
    subst h
    intro i hi
    rw [List.mem_filter] at hi
    exact hinv i hi.1

/-- Concrete state for the C9 witness. -/
def c9db : DB :=
  { projects := [], tasks := [], members := []
    invitations := [{ id := 5, projectId := 1, invitedUserId := 2, invitedBy := 3,
                      role := ProjectRole.Viewer, status := InvStatus.pending }] }

/-- Witness for C9: an `Owner` invite is rejected at a concrete state
satisfying the role invariant. -/
theorem c9_invitation_roles_witness :
    (∀ i ∈ c9db.invitations, i.role = ProjectRole.Member ∨ i.role = ProjectRole.Viewer)
    ∧ exceptIsOk (createProjectInvitation c9db 1 7 3 ProjectRole.Owner 6) = false :=
  ⟨by decide,
    (c9_invitation_roles c9db 1 7 3 6 ProjectRole.Owner (by decide)).1 rfl⟩

/-- **C2 (amended).** Accepting a pending invitation whose invitee is
not already a member creates exactly one membership row carrying the
invitation's role and flips the invitation to `accepted`; accepting a
pending invitation whose invitee is already a member fails on the
`project_members` unique constraint without creating a membership; and
accepting a non-pending (or unknown) invitation fails without creating
a membership. -/
theorem c2_accept_invitation (db : DB) (invId : Nat) :
    (∀ inv, db.invitations.find? (fun i =>
        i.id == invId && i.status == InvStatus.pending) = some inv →
      (db.members.any (fun m =>
          m.projectId == inv.projectId && m.userId == inv.invitedUserId) = false →
        acceptProjectInvitation db invId = Except.ok
          { db with
            members := db.members ++
              [{ projectId := inv.projectId, userId := inv.invitedUserId, role := inv.role }],
            invitations := db.invitations.map (fun i =>
              if i.id == invId then { i with status := InvStatus.accepted } else i) })
      ∧ (db.members.any (fun m =>
          m.projectId == inv.projectId && m.userId == inv.invitedUserId) = true →
        exceptIsOk (acceptProjectInvitation db invId) = false))
    ∧ (db.invitations.find? (fun i =>
        i.id == invId && i.status == InvStatus.pending) = none →
      exceptIsOk (acceptProjectInvitation db invId) = false) := by
  constructor
  · intro inv hfind
    constructor
    · intro hmem
      unfold acceptProjectInvitation
      rw [hfind]
      dsimp only
      rw [if_neg (by rw [hmem]; exact Bool.false_ne_true)]
    · intro hmem
      unfold acceptProjectInvitation
      rw [hfind]
      dsimp only
      rw [if_pos hmem]
      rfl
  · intro hfind
    unfold acceptProjectInvitation
    rw [hfind]
    rfl

/-- Counterexample state for C2: invitation 5 is pending but its
invitee (user 200) is already a member of project 1. -/
def c2db : DB :=
  { projects := [], tasks := []
    members := [{ projectId := 1, userId := 200, role := ProjectRole.Member }]
    invitations := [{ id := 5, projectId := 1, invitedUserId := 200, invitedBy := 100,
                      role := ProjectRole.Member, status := InvStatus.pending }] }

/-- **C2, counterexample.** Accepting a *pending* invitation can fail:
when the invitee is already a member, the membership insert violates
`UNIQUE(project_id, user_id)` and the whole accept throws, so a pending
accept does not always create a membership and mark the invitation
accepted. -/
theorem c2_accept_pending_can_fail :
    (c2db.invitations.find? (fun i => i.id == 5)).map (fun i => i.status)
      = some InvStatus.pending
    ∧ exceptIsOk (acceptProjectInvitation c2db 5) = false := by
  constructor <;> decide

/-- Witness state for C2 (amended): same pending invitation, invitee
not yet a member. -/
def c2wdb : DB :=
  { projects := [], tasks := [], members := []
    invitations := [{ id := 5, projectId := 1, invitedUserId := 200, invitedBy := 100,
                      role := ProjectRole.Viewer, status := InvStatus.pending }] }

/-- The pending invitation of the C2 witness state. -/
def c2winv : InvitationRow :=
  { id := 5, projectId := 1, invitedUserId := 200, invitedBy := 100,
    role := ProjectRole.Viewer, status := InvStatus.pending }

/-- The state the C2 witness expects: one new `Viewer` membership, the
invitation accepted. -/
def c2wres : DB :=
  { projects := [], tasks := []
    members := [{ projectId := 1, userId := 200, role := ProjectRole.Viewer }]
    invitations := [{ id := 5, projectId := 1, invitedUserId := 200, invitedBy := 100,
                      role := ProjectRole.Viewer, status := InvStatus.accepted }] }

/-- Witness for C2 (amended): the happy path at a concrete state. -/
theorem c2_accept_invitation_witness :
    c2wdb.invitations.find? (fun i => i.id == 5 && i.status == InvStatus.pending)
      = some c2winv
    ∧ acceptProjectInvitation c2wdb 5 = Except.ok c2wres :=
  ⟨by decide,
    ((c2_accept_invitation c2wdb 5).1 c2winv (by decide)).1 (by decide)⟩

/-- **C3 (amended).** The invite operation fails before creating any
record when the invitee is already a member or already has a pending
invitation; when neither holds and no earlier (accepted or declined)
invitation row exists for the (project, invitee) pair, it creates a new
invitation in the pending state (for the contract's admissible roles,
`Member`/`Viewer`); but when an earlier resolved invitation row exists,
the insert fails on `UNIQUE(project_id, invited_user_id)` and no record
is created. -/
theorem c3_create_invitation (db : DB) (pid uid inviter newId : Nat) (role : ProjectRole) :
    (db.members.any (fun m => m.projectId == pid && m.userId == uid) = true →
      createProjectInvitation db pid uid inviter role newId =
        Except.error "User is already a member of this project")
    ∧ (db.members.any (fun m => m.projectId == pid && m.userId == uid) = false →
       db.invitations.any (fun i =>
          i.projectId == pid && i.invitedUserId == uid && i.status == InvStatus.pending) = true →
        createProjectInvitation db pid uid inviter role newId =
          Except.error "User already has a pending invitation to this project")
    ∧ (db.members.any (fun m => m.projectId == pid && m.userId == uid) = false →
       role ≠ ProjectRole.Owner →
       db.invitations.any (fun i => i.projectId == pid && i.invitedUserId == uid) = false →
        createProjectInvitation db pid uid inviter role newId =
          Except.ok
            ({ db with invitations := db.invitations ++
                [{ id := newId, projectId := pid, invitedUserId := uid, invitedBy := inviter,
                   role := role, status := InvStatus.pending }] },
             { id := newId, projectId := pid, invitedUserId := uid, invitedBy := inviter,
               role := role, status := InvStatus.pending }))
    ∧ (db.members.any (fun m => m.projectId == pid && m.userId == uid) = false →
       db.invitations.any (fun i =>
          i.projectId == pid && i.invitedUserId == uid && i.status == InvStatus.pending) = false →
       db.invitations.any (fun i => i.projectId == pid && i.invitedUserId == uid) = true →
        exceptIsOk (createProjectInvitation db pid uid inviter role newId) = false) := by
  refine ⟨?_, ?_, ?_, ?_⟩
  · intro hA
    unfold createProjectInvitation
    rw [if_pos hA]
  · intro hA hB
    unfold createProjectInvitation
    rw [if_neg (by simp [hA]), if_pos hB]
  · intro hA hrole hC
    have hB : db.invitations.any (fun i =>
        i.projectId == pid && i.invitedUserId == uid && i.status == InvStatus.pending)
        = false := by
      by_contra hB
      rw [Bool.not_eq_false, List.any_eq_true] at hB
      obtain ⟨i, hi, hpred⟩ := hB
      rw [Bool.and_eq_true, Bool.and_eq_true] at hpred
      have hC2 : db.invitations.any
          (fun i => i.projectId == pid && i.invitedUserId == uid) = true := by
        rw [List.any_eq_true]
        exact ⟨i, hi, by rw [Bool.and_eq_true]; exact hpred.1⟩
      rw [hC] at hC2
      exact Bool.false_ne_true hC2
    unfold createProjectInvitation
    rw [if_neg (by simp [hA]), if_neg (by simp [hB]),
      if_neg (by simp [beq_eq_false_iff_ne.mpr hrole]), if_neg (by simp [hC])]
  · intro hA hB hC
    unfold createProjectInvitation
    rw [if_neg (by simp [hA]), if_neg (by simp [hB])]
    by_cases hr : (role == ProjectRole.Owner) = true
    · rw [if_pos hr]
      rfl
    · rw [if_neg hr, if_pos hC]
      rfl

/-- Counterexample state for C3: user 200 is not a member of project 1
and has no pending invitation, but an earlier invitation was declined
and its row is still there. -/
def c3db : DB :=
  { projects := [], tasks := [], members := []
    invitations := [{ id := 5, projectId := 1, invitedUserId := 200, invitedBy := 100,
                      role := ProjectRole.Member, status := InvStatus.declined }] }

/-- **C3, counterexample.** Invitee 200 is neither a member of project
1 nor holder of a pending invitation, yet the invite fails instead of
creating a pending invitation: the declined invitation row still
occupies `UNIQUE(project_id, invited_user_id)`. -/
theorem c3_reinvite_after_decline_fails :
    c3db.members.any (fun m => m.projectId == 1 && m.userId == 200) = false
    ∧ c3db.invitations.any (fun i =>
        i.projectId == 1 && i.invitedUserId == 200 && i.status == InvStatus.pending) = false
    ∧ exceptIsOk (createProjectInvitation c3db 1 200 100 ProjectRole.Viewer 6) = false := by
  refine ⟨?_, ?_, ?_⟩ <;> decide

/-- Witness state for C3 (amended): no memberships, no invitations. -/
def c3wdb : DB :=
  { projects := [], tasks := [], members := [], invitations := [] }

/-- The invitation row the C3 witness expects. -/
def c3wrow : InvitationRow :=
  { id := 6, projectId := 1, invitedUserId := 200, invitedBy := 100,
    role := ProjectRole.Member, status := InvStatus.pending }

/-- Witness for C3 (amended): the happy path at a concrete state. -/
theorem c3_create_invitation_witness :
    c3wdb.members.any (fun m => m.projectId == 1 && m.userId == 200) = false
    ∧ c3wdb.invitations.any (fun i => i.projectId == 1 && i.invitedUserId == 200) = false
    ∧ createProjectInvitation c3wdb 1 200 100 ProjectRole.Member 6 =
        Except.ok ({ c3wdb with invitations := c3wdb.invitations ++ [c3wrow] }, c3wrow) :=
  ⟨by decide, by decide,
    (c3_create_invitation c3wdb 1 200 100 6 ProjectRole.Member).2.2.1
      (by decide) (by decide) (by decide)⟩

theorem transformRaw_length (now : Nat) (l : List RawTask) :
    (transformRaw now l).length = l.length := by
  unfold transformRaw
  exact List.length_mapIdx

/-- Every attempt outcome either counts as a failure or is a non-empty
parsed array. -/
theorem attemptResolve (o : Option (List RawTask)) :
    attemptFailed o ∨ ∃ l, o = some l ∧ l.length ≠ 0 := by
  cases o with
  | none => exact Or.inl (Or.inl rfl)
  | some l =>
    by_cases h : l = []
    · exact Or.inl (Or.inr (by rw [h]))
    · exact Or.inr ⟨l, rfl, by simpa using h⟩

/-- Unfolding the retry loop: a validated, non-empty response returns
its transform at once. -/
theorem generateLoop_success (oracle : Nat → Option (List RawTask)) (now attempt fuel : Nat)
    (hfuel : 0 < fuel) (hlt : attempt < MAX_RETRIES) (l : List RawTask)
    (hor : oracle attempt = some l) (hne : l.length ≠ 0) :
    generateLoop oracle now attempt fuel
      = { tasks := transformRaw now l, delaysMs := [], callCount := 1 } := by
  cases fuel with
  | zero => omega
  | succ f =>
    unfold generateLoop
    rw [if_pos hlt, hor]
    dsimp only
    rw [if_pos (by simpa using hne)]

/-- Unfolding the retry loop: a failure with retries left delays
`1000 · 2^(attempt+1)` ms and loops. -/
theorem generateLoop_fail_mid (oracle : Nat → Option (List RawTask)) (now attempt fuel : Nat)
    (hfuel : 0 < fuel) (hlt : attempt + 1 < MAX_RETRIES)
    (hf : attemptFailed (oracle attempt)) :
    generateLoop oracle now attempt fuel
      = { tasks := (generateLoop oracle now (attempt + 1) (fuel - 1)).tasks,
          delaysMs := 1000 * 2 ^ (attempt + 1) ::
            (generateLoop oracle now (attempt + 1) (fuel - 1)).delaysMs,
          callCount := (generateLoop oracle now (attempt + 1) (fuel - 1)).callCount + 1 } := by
  cases fuel with
  | zero => omega
  | succ f =>
    have hlt0 : attempt < MAX_RETRIES := Nat.lt_of_succ_lt hlt
    have hnle : ¬ MAX_RETRIES ≤ attempt + 1 := by omega
    simp only [Nat.add_sub_cancel]
    conv_lhs => unfold generateLoop
    rw [if_pos hlt0]
    rcases hf with hf | hf
    · rw [hf]
      dsimp only
      rw [if_neg hnle]
    · rw [hf]
      dsimp only
      rw [if_neg (by decide : ¬ ((([] : List RawTask).length != 0) = true))]
      rw [if_neg hnle]

/-- Unfolding the retry loop: the third consecutive failure falls back
to the fixed list with no further delay. -/
theorem generateLoop_fail_last (oracle : Nat → Option (List RawTask)) (now attempt fuel : Nat)
    (hfuel : 0 < fuel) (hlt : attempt < MAX_RETRIES) (hge : MAX_RETRIES ≤ attempt + 1)
    (hf : attemptFailed (oracle attempt)) :
    generateLoop oracle now attempt fuel
      = { tasks := simulateAiResponse now, delaysMs := [], callCount := 1 } := by
  cases fuel with
  | zero => omega
  | succ f =>
    unfold generateLoop
    rw [if_pos hlt]
    rcases hf with hf | hf
    · rw [hf]
      dsimp only
      rw [if_pos hge]
    · rw [hf]
      dsimp only
      rw [if_neg (by decide : ¬ ((([] : List RawTask).length != 0) = true))]
      rw [if_pos hge]

/-- **C4.** `generateTasks` returns exactly the fixed five-task
fallback list when no API credential is configured (JS also treats an
empty string as missing) or when all three attempts fail; and when some
attempt succeeds with a well-formed response — a parsed array of 5 to 8
suggestions, the shape the prompt requests — it returns one task per
suggestion, hence between 5 and 8 tasks. -/
theorem c4_generateTasks_bounds (apiKey : Option String)
    (oracle : Nat → Option (List RawTask)) (now : Nat) :
    (simulateAiResponse now).length = 5
    ∧ (apiKey = none →
        (generateProjectTasks apiKey oracle now).tasks = simulateAiResponse now)
    ∧ ((∀ k, k < MAX_RETRIES → attemptFailed (oracle k)) →
        (generateProjectTasks apiKey oracle now).tasks = simulateAiResponse now)
    ∧ (∀ k l, k < MAX_RETRIES → (∀ j, j < k → attemptFailed (oracle j)) →
        oracle k = some l → 5 ≤ l.length → l.length ≤ 8 →
        5 ≤ (generateProjectTasks apiKey oracle now).tasks.length
        ∧ (generateProjectTasks apiKey oracle now).tasks.length ≤ 8) := by
  refine ⟨rfl, ?_, ?_, ?_⟩
  · intro h
    subst h
    rfl
  · intro hall
    cases apiKey with
    | none => rfl
    | some s =>
      unfold generateProjectTasks
      dsimp only
      by_cases hs : (s == "") = true
      · rw [if_pos hs]
      · rw [if_neg hs]
        rw [generateLoop_fail_mid oracle now 0 MAX_RETRIES (by decide) (by decide)
          (hall 0 (by decide))]
        dsimp only
        rw [generateLoop_fail_mid oracle now 1 (MAX_RETRIES - 1) (by decide) (by decide)
          (hall 1 (by decide))]
        dsimp only
        rw [generateLoop_fail_last oracle now 2 (MAX_RETRIES - 1 - 1) (by decide) (by decide)
          (by decide) (hall 2 (by decide))]
  · intro k l hk hj hok h5 h8
    cases apiKey with
    | none => exact ⟨Nat.le_refl 5, (by decide : (5 : Nat) ≤ 8)⟩
    | some s =>
      unfold generateProjectTasks
      dsimp only
      by_cases hs : (s == "") = true
      · rw [if_pos hs]
        exact ⟨Nat.le_refl 5, (by decide : (5 : Nat) ≤ 8)⟩
      · rw [if_neg hs]
        have hk3 : k < 3 := hk
        interval_cases k
        · rw [generateLoop_success oracle now 0 MAX_RETRIES (by decide) (by decide) l hok
            (by omega)]
          dsimp only
          rw [transformRaw_length]
          exact ⟨h5, h8⟩
        · rw [generateLoop_fail_mid oracle now 0 MAX_RETRIES (by decide) (by decide)
            (hj 0 (by decide))]
          dsimp only
          rw [generateLoop_success oracle now 1 (MAX_RETRIES - 1) (by decide) (by decide) l hok
            (by omega)]
          dsimp only
          rw [transformRaw_length]
          exact ⟨h5, h8⟩
        · rw [generateLoop_fail_mid oracle now 0 MAX_RETRIES (by decide) (by decide)
            (hj 0 (by decide))]
          dsimp only
          rw [generateLoop_fail_mid oracle now 1 (MAX_RETRIES - 1) (by decide) (by decide)
            (hj 1 (by decide))]
          dsimp only
          rw [generateLoop_success oracle now 2 (MAX_RETRIES - 1 - 1) (by decide) (by decide)
            l hok (by omega)]
          dsimp only
          rw [transformRaw_length]
          exact ⟨h5, h8⟩

/-- Witness for C4: with no credential the fallback list is returned. -/
theorem c4_generateTasks_bounds_witness :
    (generateProjectTasks none (fun _ => none) 0).tasks = simulateAiResponse 0 :=
  (c4_generateTasks_bounds none (fun _ => none) 0).2.1 rfl

/-- **C5 (amended).** At most 3 calls to the external generative
service are attempted, and the backoff delay inserted after a failed
attempt is `1000 · 2^attempt` ms with `attempt` already incremented:
2000 ms before the second attempt and 4000 ms before the third (not
1000 ms and 2000 ms as the claim stated). -/
theorem c5_retry_backoff (apiKey : Option String)
    (oracle : Nat → Option (List RawTask)) (now : Nat) :
    (generateProjectTasks apiKey oracle now).callCount ≤ 3
    ∧ (generateProjectTasks apiKey oracle now).delaysMs
        = List.take ((generateProjectTasks apiKey oracle now).callCount - 1)
            [2000, 4000] := by
  cases apiKey with
  | none => exact ⟨Nat.zero_le 3, rfl⟩
  | some s =>
    unfold generateProjectTasks
    dsimp only
    by_cases hs : (s == "") = true
    · rw [if_pos hs]
      exact ⟨Nat.zero_le 3, rfl⟩
    · rw [if_neg hs]
      rcases attemptResolve (oracle 0) with hf0 | ⟨l0, hl0, hne0⟩
      · rcases attemptResolve (oracle 1) with hf1 | ⟨l1, hl1, hne1⟩
        · rcases attemptResolve (oracle 2) with hf2 | ⟨l2, hl2, hne2⟩
          · rw [generateLoop_fail_mid oracle now 0 MAX_RETRIES (by decide) (by decide) hf0]
            dsimp only
            rw [generateLoop_fail_mid oracle now 1 (MAX_RETRIES - 1) (by decide) (by decide) hf1]
            dsimp only
            rw [generateLoop_fail_last oracle now 2 (MAX_RETRIES - 1 - 1) (by decide) (by decide)
              (by decide) hf2]
            exact ⟨by dsimp only; decide, by dsimp only; decide⟩
          · rw [generateLoop_fail_mid oracle now 0 MAX_RETRIES (by decide) (by decide) hf0]
            dsimp only
            rw [generateLoop_fail_mid oracle now 1 (MAX_RETRIES - 1) (by decide) (by decide) hf1]
            dsimp only
            rw [generateLoop_success oracle now 2 (MAX_RETRIES - 1 - 1) (by decide) (by decide)
              l2 hl2 hne2]
            exact ⟨by dsimp only; decide, by dsimp only; decide⟩
        · rw [generateLoop_fail_mid oracle now 0 MAX_RETRIES (by decide) (by decide) hf0]
          dsimp only
          rw [generateLoop_success oracle now 1 (MAX_RETRIES - 1) (by decide) (by decide)
            l1 hl1 hne1]
          exact ⟨by dsimp only; decide, by dsimp only; decide⟩
      · rw [generateLoop_success oracle now 0 MAX_RETRIES (by decide) (by decide) l0 hl0 hne0]
        exact ⟨by dsimp only; decide, by dsimp only; decide⟩

/-- **C5, counterexample.** With a credential configured and every
attempt failing, the inserted delays are 2000 ms then 4000 ms — not the
1000 ms and 2000 ms the claim states. -/
theorem c5_backoff_delays_cex :
    (generateProjectTasks (some "key") (fun _ => none) 0).delaysMs = [2000, 4000]
    ∧ (generateProjectTasks (some "key") (fun _ => none) 0).callCount = 3
    ∧ ¬ (generateProjectTasks (some "key") (fun _ => none) 0).delaysMs = [1000, 2000] := by
  refine ⟨?_, ?_, ?_⟩ <;> decide
